import Mathlib

/-!
A shallow embedding of the `content-creator` chat frontend, covering:

* the API client (`agent-api.ts`): `createSession`, `sendMessage`, `getSession`,
  `getAllSessions`, `deleteSession`, `getPersonalityPresets`, `scrapeWebsite`,
  and the configured base URL;
* the session context (`AgentContext.tsx`): `initializeSession`,
  `sendUserMessage`, `loadSession` (as its synchronous segments),
  `createNewSession`, `deleteSessionById`, and the settings mutators;
* the chat page (`page.tsx`): `handleSubmit`;
* the chat message renderer (`ChatMessage.tsx`): the textual normalization
  applied before markdown rendering, including a faithful executable model of
  the JavaScript regex replaces it performs.

Asynchronous operations are modelled by explicit outcome parameters standing
for the backend's response; each synchronous segment between `await` points is
an atomic state transformation, and React functional state updates
(`setX(prev => ...)`) read the live state while plain reads of `useState`
variables read the closure snapshot captured at the start of the call, which
is how the source behaves.
-/

namespace ContentCreator

/-! ## Data model (interfaces in `agent-api.ts`) -/

/-- Message role: `'user' | 'assistant'`. -/
inductive Role where
  | user
  | assistant
deriving DecidableEq, Repr

/-- TypeScript `interface ChatMessage { role; content }`. -/
structure ChatMessage where
  role : Role
  content : String
deriving DecidableEq, Repr

/-- TypeScript `interface ChatSession { session_id; messages; title?; createdAt?; lastMessageAt? }`. -/
structure ChatSession where
  session_id : String
  messages : List ChatMessage
  title : Option String := none
  createdAt : Option String := none
  lastMessageAt : Option String := none
deriving DecidableEq, Repr

/-- TypeScript `interface PersonalitySettings { type: string; custom?: Record<string,string> }`. -/
structure PersonalitySettings where
  type : String
  custom : Option (List (String × String)) := none
deriving DecidableEq, Repr

/-- TypeScript `interface BackgroundInfo { items: string[] }`. -/
structure BackgroundInfo where
  items : List String
deriving DecidableEq, Repr

/-- TypeScript `interface ToolSettings` (four boolean toggles). -/
structure ToolSettings where
  background_search : Bool
  memory_storage : Bool
  memory_retrieval : Bool
  web_search : Bool
deriving DecidableEq, Repr

/-- TypeScript `interface OrganizationSettings { name; personality; background; tools }`. -/
structure OrganizationSettings where
  name : String
  personality : PersonalitySettings
  background : BackgroundInfo
  tools : ToolSettings
deriving DecidableEq, Repr

/-- TypeScript `interface SessionResponse { session_id; message }`. -/
structure SessionResponse where
  session_id : String
  message : String
deriving DecidableEq, Repr

/-- TypeScript `interface MessageResponse { session_id; response }`. -/
structure MessageResponse where
  session_id : String
  response : String
deriving DecidableEq, Repr

/-- Result value of the client `deleteSession`: `{ success, message }`. -/
structure DeleteResult where
  success : Bool
  message : String
deriving DecidableEq, Repr

/-- Body of `GET /personalities`: `{ presets }`; `getPersonalityPresets` returns `data.presets`. -/
structure PresetsBody where
  presets : List (String × String)
deriving DecidableEq, Repr

/-- TypeScript `interface WebsiteScrapeRequest { url; max_pages?; max_items? }`. -/
structure WebsiteScrapeRequest where
  url : String
  max_pages : Option Nat := none
  max_items : Option Nat := none
deriving DecidableEq, Repr

/-- TypeScript `interface WebsiteScrapeResponse { status; message; background_items }`. -/
structure WebsiteScrapeResponse where
  status : String
  message : String
  background_items : List String
deriving DecidableEq, Repr

/-! ## API client (`agent-api.ts`) -/

/-- Source line `const API_BASE_URL = process.env.NEXT_PUBLIC_API_URL || 'ec2-54-235-6-245.compute-1.amazonaws.com'`. -/
def API_BASE_URL (env : Option String) : String :=
  env.getD "ec2-54-235-6-245.compute-1.amazonaws.com"

/-- Outcome of one `fetch` inside a client operation: a successful (2xx)
response whose parsed JSON body is `value`, a non-2xx response
(`response.ok` false), or a thrown error (network failure or JSON parse
failure), carrying the thrown error's message. -/
inductive FetchOutcome (α : Type) where
  | ok (value : α)
  | httpError (status : Nat) (statusText : String)
  | networkError (message : String)
deriving DecidableEq, Repr

namespace AgentApi

/-- Client `createSession`: throws `Failed to create session: ${statusText}` on a
non-ok response; the catch block rethrows, so every failure propagates. -/
def createSession (o : FetchOutcome SessionResponse) : Except String SessionResponse :=
  match o with
  | .ok v => .ok v
  | .httpError _ statusText => .error ("Failed to create session: " ++ statusText)
  | .networkError m => .error m

/-- Client `sendMessage`: throws `Failed to send message: ${statusText}` on a non-ok
response; the catch block rethrows. -/
def sendMessage (o : FetchOutcome MessageResponse) : Except String MessageResponse :=
  match o with
  | .ok v => .ok v
  | .httpError _ statusText => .error ("Failed to send message: " ++ statusText)
  | .networkError m => .error m

/-- Client `getSession`: throws `Failed to get session: ${statusText}` on a non-ok
response; the catch block rethrows. -/
def getSession (o : FetchOutcome ChatSession) : Except String ChatSession :=
  match o with
  | .ok v => .ok v
  | .httpError _ statusText => .error ("Failed to get session: " ++ statusText)
  | .networkError m => .error m

/-- Client `getPersonalityPresets`: returns `data.presets`; throws on a non-ok
response; the catch block rethrows. -/
def getPersonalityPresets (o : FetchOutcome PresetsBody) : Except String (List (String × String)) :=
  match o with
  | .ok v => .ok v.presets
  | .httpError _ statusText => .error ("Failed to get personality presets: " ++ statusText)
  | .networkError m => .error m

/-- The fixed mock list returned by `getAllSessions` when its request fails.
The source stamps the entries with `new Date(Date.now() - k).toISOString()`;
`now` and `toIso` stand for `Date.now()` and that conversion. -/
def mockSessions (now : Int) (toIso : Int → String) : List ChatSession :=
  [ { session_id := "1", title := some "Project Planning",
      messages := [{ role := .assistant, content := "Let's schedule..." }],
      createdAt := some (toIso (now - 86400000)),
      lastMessageAt := some (toIso (now - 3600000)) },
    { session_id := "2", title := some "Tech Support",
      messages := [{ role := .assistant, content := "The error is..." }],
      createdAt := some (toIso (now - 172800000)),
      lastMessageAt := some (toIso (now - 7200000)) },
    { session_id := "3", title := some "Brainstorming",
      messages := [{ role := .assistant, content := "New ideas for..." }],
      createdAt := some (toIso (now - 259200000)),
      lastMessageAt := some (toIso (now - 10800000)) } ]

/-- Client `getAllSessions`: a non-ok response throws inside the `try`, and the
`catch` block swallows every error and returns the mock list, so any failure
whatsoever yields the mock data. -/
def getAllSessions (now : Int) (toIso : Int → String)
    (o : FetchOutcome (List ChatSession)) : Except String (List ChatSession) :=
  match o with
  | .ok v => .ok v
  | .httpError _ _ => .ok (mockSessions now toIso)
  | .networkError _ => .ok (mockSessions now toIso)

/-- Client `deleteSession`: a non-ok response throws
`Failed to delete session: ${statusText}` inside the `try`, but the `catch`
block returns `{ success: false, message: ... }` instead of rethrowing, so
this operation never propagates an error. -/
def deleteSession (o : FetchOutcome Unit) : Except String DeleteResult :=
  match o with
  | .ok _ => .ok { success := true, message := "Session deleted successfully" }
  | .httpError _ statusText =>
      .ok { success := false,
            message := "Error deleting session: " ++ ("Failed to delete session: " ++ statusText) }
  | .networkError m =>
      .ok { success := false, message := "Error deleting session: " ++ m }

/-- Client `scrapeWebsite`: throws `Failed to scrape website: ${statusText}` on a
non-ok response; the catch block rethrows. -/
def scrapeWebsite (_req : WebsiteScrapeRequest)
    (o : FetchOutcome WebsiteScrapeResponse) : Except String WebsiteScrapeResponse :=
  match o with
  | .ok v => .ok v
  | .httpError _ statusText => .error ("Failed to scrape website: " ++ statusText)
  | .networkError m => .error m

end AgentApi

/-! ## Requests and their target URLs -/

/-- One HTTP request issued by the frontend, identified by its call site. -/
inductive Request where
  | createSession (settings : OrganizationSettings)
  | clientChat (sessionId message : String)
  | clientGetSession (sessionId : String)
  | clientGetAllSessions
  | clientDelete (sessionId : String)
  | clientGetPresets
  | clientScrape (req : WebsiteScrapeRequest)
  | contextDirectChat (sessionId message : String)
  | pageCreateSession (settings : OrganizationSettings)
  | pageChat (sessionId message : String)
deriving DecidableEq, Repr

/-- In `page.tsx` the base URL is `process.env.NEXT_PUBLIC_API_URL` with no
fallback; interpolating the missing value yields the string `"undefined"`. -/
def pageBase (env : Option String) : String :=
  env.getD "undefined"

/-- The URL each request call site targets, as written in the source.
`contextDirectChat` is the `window.fetch('http://localhost:8000/chat', ...)`
call hardcoded in `sendUserMessage` (`AgentContext.tsx` line 198). -/
def requestUrl (env : Option String) : Request → String
  | .createSession _ => API_BASE_URL env ++ "/sessions"
  | .clientChat _ _ => API_BASE_URL env ++ "/chat"
  | .clientGetSession sid => API_BASE_URL env ++ "/sessions/" ++ sid
  | .clientGetAllSessions => API_BASE_URL env ++ "/sessions"
  | .clientDelete sid => API_BASE_URL env ++ "/sessions/" ++ sid
  | .clientGetPresets => API_BASE_URL env ++ "/personalities"
  | .clientScrape _ => API_BASE_URL env ++ "/scrape-website"
  | .contextDirectChat _ _ => "http://localhost:8000/chat"
  | .pageCreateSession _ => pageBase env ++ "/sessions"
  | .pageChat _ _ => pageBase env ++ "/chat"

/-! ## String helpers (JavaScript `includes` / `startsWith`) -/

/-- Whether `pat` is a prefix of `s` (character lists). -/
def listStarts : List Char → List Char → Bool
  | [], _ => true
  | _ :: _, [] => false
  | p :: ps, c :: cs => p = c && listStarts ps cs

/-- Whether `pat` occurs as a contiguous substring of `s`
(JavaScript `s.includes(pat)`). -/
def hasSubstr (pat : List Char) : List Char → Bool
  | [] => listStarts pat []
  | c :: cs => listStarts pat (c :: cs) || hasSubstr pat cs

/-- JavaScript `s.includes(pat)` on strings. -/
def strContains (s pat : String) : Bool :=
  hasSubstr pat.toList s.toList

/-- ASCII subset of the JavaScript `\s` character class (the source never
depends on the Unicode space characters). -/
def isWs (c : Char) : Bool :=
  c = ' ' || c = '\t' || c = '\n' || c = '\r' || c = '\x0b' || c = '\x0c'

/-- JavaScript `s.trim()`: strip leading and trailing whitespace. -/
def jsTrim (s : String) : String :=
  (((s.toList.dropWhile isWs).reverse.dropWhile isWs).reverse).asString

/-! ## Browser `localStorage` as a key-value map -/

/-- The persisted browser storage, as an association list of keys to values
(each key occurs at most once after updates through `setItem`). -/
abbrev Store := List (String × String)

/-- Browser `localStorage.setItem(k, v)`. -/
def setItem (st : Store) (k v : String) : Store :=
  (k, v) :: st.filter (fun p => p.1 ≠ k)

/-- Browser `localStorage.getItem(k)` (`none` stands for `null`). -/
def getItem (st : Store) (k : String) : Option String :=
  (st.find? (fun p => p.1 = k)).map (fun p => p.2)

/-- Browser `localStorage.removeItem(k)`. -/
def removeItem (st : Store) (k : String) : Store :=
  st.filter (fun p => p.1 ≠ k)

/-! ## Session context state (`AgentContext.tsx`) -/

/-- The `currentSettings` state value, `{ organization: OrganizationSettings }`. -/
structure CurrentSettings where
  organization : OrganizationSettings
deriving DecidableEq, Repr

/-- The `useState` values held by `AgentProvider`, together with the browser
storage the provider reads and writes. -/
structure AgentState where
  isInitialized : Bool
  isLoading : Bool
  sessionId : Option String
  messages : List ChatMessage
  sessions : List ChatSession
  currentSettings : CurrentSettings
  store : Store
deriving DecidableEq, Repr

/-- Constant `defaultOrganizationSettings` (`AgentContext.tsx` lines 43-53). -/
def defaultOrganizationSettings : OrganizationSettings :=
  { name := "Agentica AI",
    personality := { type := "Balanced" },
    background := { items := [] },
    tools := { background_search := true, memory_storage := true,
               memory_retrieval := true, web_search := true } }

/-- The provider's initial state (the `useState` initializers), with storage
contents a parameter. -/
def initialAgentState (st : Store) : AgentState :=
  { isInitialized := false, isLoading := false, sessionId := none,
    messages := [], sessions := [],
    currentSettings := { organization := defaultOrganizationSettings },
    store := st }

namespace AgentContext

/-- The synchronous continuation of `initializeSession` after
`await createSession(settings)` resolves (lines 139-152): on success it
persists the id, then sets the session id, clears the messages, stores the
settings and marks initialized; on failure the `catch` only logs and alerts;
`finally` clears the loading flag. -/
def initResolveStep (s : AgentState) (settings : OrganizationSettings) :
    Except String SessionResponse → AgentState
  | .ok r =>
      { s with store := setItem s.store "lastSessionId" r.session_id,
               sessionId := some r.session_id,
               messages := [],
               currentSettings := { organization := settings },
               isInitialized := true,
               isLoading := false }
  | .error _ => { s with isLoading := false }

/-- Context `initializeSession(settings)` (lines 133-153): sets the loading flag,
issues one `createSession` request, and runs the continuation above on the
outcome. It never throws. -/
def initializeSession (s : AgentState) (settings : OrganizationSettings)
    (createResult : Except String SessionResponse) : AgentState × List Request :=
  (initResolveStep { s with isLoading := true } settings createResult,
   [Request.createSession settings])

/-- Outcome of the direct `window.fetch('http://localhost:8000/chat', ...)`
inside `sendUserMessage` (lines 198-247): success with a truthy
`data.response`; a parsed body without a truthy `response` field (the code
throws `Invalid response format from API`); a body that fails `JSON.parse`
(throws `Failed to parse API response: ${raw}`); a non-ok response (throws
`API error: ${status} ${statusText}`); or a thrown network error with
message `m`. -/
inductive DirectChatOutcome where
  | okResponse (resp : String)
  | okNoResponse
  | parseError (raw : String)
  | httpError (status : Nat) (statusText : String)
  | networkError (message : String)
deriving DecidableEq, Repr

/-- The `error.message` of the error reaching the `catch` block of
`sendUserMessage` for each failing outcome (arbitrary on the success case). -/
def chatErrMessage : DirectChatOutcome → String
  | .okResponse _ => ""
  | .okNoResponse => "Invalid response format from API"
  | .parseError raw => "Failed to parse API response: " ++ raw
  | .httpError status statusText =>
      "API error: " ++ toString status ++ " " ++ statusText
  | .networkError m => m

/-- JavaScript `String(error)` in the `catch` block; for an `Error` instance this is
`"Error: " ++ message`, which is how every failure above is thrown. -/
def chatErrString (o : DirectChatOutcome) : String :=
  "Error: " ++ chatErrMessage o

/-- The assistant bubble appended when no session could be initialized. -/
def initFailureMsg : ChatMessage :=
  { role := .assistant,
    content := "Unable to initialize chat session. Please refresh the page and try again." }

/-- The "session expired" notice appended on a detected 404. -/
def sessionExpiredMsg : ChatMessage :=
  { role := .assistant, content := "Your session has expired. Creating a new session..." }

/-- The notice appended after re-initialization on a detected 404. -/
def newSessionMsg : ChatMessage :=
  { role := .assistant, content := "New session created. Please try your message again." }

/-- Context `sendMessage`, i.e. `sendUserMessage(message)`
(lines 156-285). `s0` is the closure snapshot of the provider state at the
start of the call; plain reads (`sessionId`, `currentSettings`) use `s0`
throughout, while the functional `setMessages(prev => ...)` updates thread
through the evolving state. `createResult` stands for the backend's answer to
a `createSession` issued by a nested `initializeSession` (at most one occurs
per call), `chat` for the direct `/chat` fetch. Returns the final state and
the requests issued, in order. -/
def sendUserMessage (s0 : AgentState) (message : String)
    (createResult : Except String SessionResponse)
    (chat : DirectChatOutcome) : AgentState × List Request :=
  match s0.sessionId with
  | none =>
      -- lines 159-174: reinitialize, then re-check the closure variable
      -- `sessionId`, which is still `null` even when initialization
      -- succeeded, so the call always replaces the messages with the error
      -- bubble and returns before any chat request.
      let (s1, r1) := initializeSession s0 s0.currentSettings.organization createResult
      ({ s1 with messages := [initFailureMsg] }, r1)
  | some sid =>
      let s1 := { s0 with isLoading := true }
      -- optimistic user message (lines 180-190)
      let s2 := { s1 with messages := s1.messages ++ [ChatMessage.mk .user message] }
      let req := Request.contextDirectChat sid message
      match chat with
      | .okResponse resp =>
          ({ s2 with messages := s2.messages ++ [ChatMessage.mk .assistant resp],
                     isLoading := false }, [req])
      | f =>
          -- catch block, lines 248-280
          let es := chatErrString f
          if strContains es "404" || strContains es "not found" then
            let s3 := { s2 with messages := s2.messages ++ [sessionExpiredMsg] }
            let (s4, r2) := initializeSession s3 s0.currentSettings.organization createResult
            let s5 := { s4 with messages := s4.messages ++ [newSessionMsg] }
            ({ s5 with isLoading := false }, req :: r2)
          else
            ({ s2 with messages := s2.messages ++
                 [ChatMessage.mk .assistant
                    ("Sorry, there was an error processing your message: " ++ chatErrMessage f)],
                       isLoading := false }, [req])

/-- Mutator `updatePersonality(personality)` (lines 288-295): a pure state update of
the `personality` field inside `currentSettings.organization`; it issues no
request. -/
def updatePersonality (s : AgentState) (personality : PersonalitySettings) :
    AgentState × List Request :=
  ({ s with currentSettings :=
      { organization := { s.currentSettings.organization with personality := personality } } }, [])

/-- Mutator `updateBackground(background)` (lines 298-305). -/
def updateBackground (s : AgentState) (background : BackgroundInfo) :
    AgentState × List Request :=
  ({ s with currentSettings :=
      { organization := { s.currentSettings.organization with background := background } } }, [])

/-- Mutator `updateOrganizationName(name)` (lines 308-315). -/
def updateOrganizationName (s : AgentState) (name : String) :
    AgentState × List Request :=
  ({ s with currentSettings :=
      { organization := { s.currentSettings.organization with name := name } } }, [])

/-- First synchronous segment of `loadSession(sessionId)` (lines 318-324):
sets the loading flag and clears the messages before the fetch. -/
def loadStartStep (s : AgentState) : AgentState :=
  { s with isLoading := true, messages := [] }

/-- Continuation of `loadSession` after `await getSession(sessionId)`
(lines 326-340): on success it sets the session id and that session's
messages together, marks initialized and persists the id; on failure the
`catch` rethrows and `finally` clears the loading flag. -/
def loadResolveStep (s : AgentState) (sid : String) :
    Except String ChatSession → AgentState
  | .ok sess =>
      { s with sessionId := some sid,
               messages := sess.messages,
               isInitialized := true,
               store := setItem s.store "lastSessionId" sid }
  | .error _ => { s with isLoading := false }

/-- Final segment of `loadSession` after `await getAllSessions()`
(lines 336-343): refreshes the summary list; `finally` clears loading. -/
def loadSessionsStep (s : AgentState) (updated : List ChatSession) : AgentState :=
  { s with sessions := updated, isLoading := false }

/-- Context `deleteSession(idToDelete)`, i.e. `deleteSessionById`
(lines 364-386). The client `deleteSession` never throws (its `catch`
returns a value), so the body always completes: the id is filtered out of
the summaries, and if it was the active session the id, messages,
initialized flag and the persisted `lastSessionId` are cleared. -/
def deleteSessionById (s : AgentState) (idToDelete : String) :
    AgentState × List Request :=
  let s1 := { s with sessions := s.sessions.filter (fun ses => ses.session_id ≠ idToDelete) }
  if s.sessionId = some idToDelete then
    ({ s1 with sessionId := none,
               messages := [],
               isInitialized := false,
               store := removeItem s1.store "lastSessionId" }, [Request.clientDelete idToDelete])
  else
    (s1, [Request.clientDelete idToDelete])

/-! ### Interleaving model of the load/create/delete operations

Each constructor below is one synchronous segment (between `await` points) of
`loadSession`, `initializeSession`, `createNewSession` (which first runs
`setMessages([])`, line 350, then delegates to `initializeSession`), or
`deleteSessionById`. A list of events is an arbitrary interleaving of any
number of concurrent calls; `backend` fixes what `getSession` answers for
each id, so that a loaded message list can be compared with the id it came
from. -/
inductive SessionEv where
  | loadStart
  | loadResolve (sid : String)
  | loadSessions (ss : List ChatSession)
  | initStart
  | initResolve (settings : OrganizationSettings) (r : Except String SessionResponse)
  | newChatClear
  | deleteResolve (sid : String)
deriving Repr

/-- One event step of the interleaving model. -/
def stepEv (backend : String → Except String ChatSession) (s : AgentState) :
    SessionEv → AgentState
  | .loadStart => loadStartStep s
  | .loadResolve sid => loadResolveStep s sid (backend sid)
  | .loadSessions ss => loadSessionsStep s ss
  | .initStart => { s with isLoading := true }
  | .initResolve settings r => initResolveStep s settings r
  | .newChatClear => { s with messages := [] }
  | .deleteResolve sid => (deleteSessionById s sid).1

/-- Run a sequence of interleaved segments from a starting state. -/
def runEvents (backend : String → Except String ChatSession)
    (s : AgentState) (evs : List SessionEv) : AgentState :=
  evs.foldl (stepEv backend) s

/-- Consistency of the active id with the message list: the messages are
either cleared or exactly the messages the backend holds for the active
session id (never another session's messages). -/
def sessionConsistent (backend : String → Except String ChatSession)
    (s : AgentState) : Prop :=
  s.messages = [] ∨
    ∃ sid sess, s.sessionId = some sid ∧ backend sid = .ok sess ∧
      s.messages = sess.messages

end AgentContext

/-! ## Chat page (`page.tsx`) -/

namespace Page

/-- Outcome of the page's own `POST ${apiBaseUrl}/sessions` in
`handleSubmit` (lines 229-258): parsed body on ok; non-ok throws
`Session creation failed: ${status}`; any other throw carries message `m`. -/
inductive PageCreateOutcome where
  | ok (r : SessionResponse)
  | httpError (status : Nat)
  | thrown (message : String)
deriving DecidableEq, Repr

/-- Outcome of the page's `POST ${apiBaseUrl}/chat` (lines 265-292): ok with
a truthy `chatData.response`; ok without one (throws
`Invalid response format`); non-ok (throws `API error: ${status}`); or any
other throw with message `m`. -/
inductive PageChatOutcome where
  | okResponse (resp : String)
  | okNoResponse
  | httpError (status : Nat)
  | thrown (message : String)
deriving DecidableEq, Repr

/-- Result of one `handleSubmit` run: the page-local message list, the
browser storage, and the requests issued in order. -/
structure PageRun where
  messages : List ChatMessage
  store : Store
  requests : List Request
deriving DecidableEq, Repr

/-- The error bubble appended by the page's `catch` block (lines 293-299):
`Error: ${error?.message || 'An unknown error occurred'}`. -/
def pageErrorMsg (m : String) : ChatMessage :=
  { role := .assistant,
    content := "Error: " ++ (if m = "" then "An unknown error occurred" else m) }

/-- The chat half of `handleSubmit` (lines 261-292), after a session id is
available. -/
def pageChatPart (msgs : List ChatMessage) (store : Store) (reqs : List Request)
    (sid input : String) (chat : PageChatOutcome) : PageRun :=
  let reqs := reqs ++ [Request.pageChat sid input]
  match chat with
  | .okResponse resp =>
      ⟨msgs ++ [{ role := .assistant, content := resp }], store, reqs⟩
  | .okNoResponse => ⟨msgs ++ [pageErrorMsg "Invalid response format"], store, reqs⟩
  | .httpError status =>
      ⟨msgs ++ [pageErrorMsg ("API error: " ++ toString status)], store, reqs⟩
  | .thrown m => ⟨msgs ++ [pageErrorMsg m], store, reqs⟩

/-- Page `handleSubmit` (lines 198-303). Returns early on empty input or while a
request is outstanding; otherwise appends the user message, reads the cached
session id from storage (`|| ''` turns a missing key into the empty string),
creates a session first when there is none — persisting and then using the
returned id — and finally posts the chat request. The settings sent with the
creation are read from storage by the component; they are passed in here as
`settings`. -/
def handleSubmit (input : String) (isLoading agentLoading : Bool)
    (msgs : List ChatMessage) (store : Store)
    (settings : OrganizationSettings)
    (create : PageCreateOutcome) (chat : PageChatOutcome) : PageRun :=
  if jsTrim input = "" || isLoading || agentLoading then ⟨msgs, store, []⟩
  else
    let msgs1 := msgs ++ [{ role := .user, content := input }]
    let sid0 := (getItem store "lastSessionId").getD ""
    if sid0 = "" then
      match create with
      | .ok r =>
          pageChatPart msgs1 (setItem store "lastSessionId" r.session_id)
            [Request.pageCreateSession settings] r.session_id input chat
      | .httpError status =>
          ⟨msgs1 ++ [pageErrorMsg ("Session creation failed: " ++ toString status)],
           store, [Request.pageCreateSession settings]⟩
      | .thrown m =>
          ⟨msgs1 ++ [pageErrorMsg m], store, [Request.pageCreateSession settings]⟩
    else
      pageChatPart msgs1 store [] sid0 input chat

end Page

/-! ## Chat message renderer (`ChatMessage.tsx`, the syntax-highlighting one)

The `useEffect` at lines 266-292 normalizes the markdown text before
rendering. Each JavaScript `String.replace` there is modelled by a
specialized matcher with the exact backtracking semantics of its regex.
The patterns are built from literals, greedy `\s*`/`\s+`/`\d+` runs, a lazy
`(.*?)` and the alternation `($|\n)` (in multiline mode); for all of them
the greedy runs are followed by a character they can never absorb, and the
lazy tail `(.*?)($|\n)` always succeeds by stopping at the first newline or
the end, so each matcher is deterministic: maximal character runs, then the
line remainder. `.` does not match a newline; `$` matches before a newline
or at the end and consumes nothing. `\s` is modelled by its ASCII subset
(the source never depends on the Unicode space characters). -/

namespace Renderer

/-- The JavaScript `\d` character class. -/
def isDigit (c : Char) : Bool :=
  '0' ≤ c && c ≤ '9'

/-- Match `^(\s*Title:\s*)(.*?)($|\n)` at a line-start position; on success
return the instantiated template `'# $2\n'` and the rest of the string after
the match (the `$` branch wins, so a following newline is not consumed). -/
def matchTitleAt (s : List Char) : Option (List Char × List Char) :=
  let r1 := s.dropWhile isWs
  if listStarts "Title:".toList r1 then
    let r3 := (r1.drop 6).dropWhile isWs
    let g2 := r3.takeWhile (fun c => c ≠ '\n')
    some ('#' :: ' ' :: g2 ++ ['\n'], r3.dropWhile (fun c => c ≠ '\n'))
  else none

/-- Match `\*\*(\d+)\.(\*\*|\s+)(.*?)($|\n)` at a position; on success return
the instantiated template `'$1. $3\n'` and the rest. The alternation prefers
its `\*\*` branch, which always suffices when it matches. -/
def matchBoldNumAt (s : List Char) : Option (List Char × List Char) :=
  if listStarts "**".toList s then
    let r1 := s.drop 2
    let d := r1.takeWhile isDigit
    if d = [] then none
    else
      match r1.drop d.length with
      | '.' :: r3 =>
          if listStarts "**".toList r3 then
            let r4 := r3.drop 2
            let g3 := r4.takeWhile (fun c => c ≠ '\n')
            some (d ++ '.' :: ' ' :: g3 ++ ['\n'], r4.dropWhile (fun c => c ≠ '\n'))
          else
            let w := r3.takeWhile isWs
            if w = [] then none
            else
              let r4 := r3.drop w.length
              let g3 := r4.takeWhile (fun c => c ≠ '\n')
              some (d ++ '.' :: ' ' :: g3 ++ ['\n'], r4.dropWhile (fun c => c ≠ '\n'))
      | _ => none
  else none

/-- Match `^(\s*)(##\s+)(.*?)($|\n)` at a line-start position; template
`'$1## $3\n'`. -/
def matchHashAt (s : List Char) : Option (List Char × List Char) :=
  let g1 := s.takeWhile isWs
  let r1 := s.dropWhile isWs
  if listStarts "##".toList r1 then
    let r2 := r1.drop 2
    let w := r2.takeWhile isWs
    if w = [] then none
    else
      let r3 := r2.drop w.length
      let g3 := r3.takeWhile (fun c => c ≠ '\n')
      some (g1 ++ '#' :: '#' :: ' ' :: g3 ++ ['\n'], r3.dropWhile (fun c => c ≠ '\n'))
  else none

/-- Match `^(\s*##\s*)(.*?)($|\n)` (the replace in the unreachable second
branch); template `'## $2\n'`. -/
def matchHashLooseAt (s : List Char) : Option (List Char × List Char) :=
  let r1 := s.dropWhile isWs
  if listStarts "##".toList r1 then
    let r2 := (r1.drop 2).dropWhile isWs
    let g2 := r2.takeWhile (fun c => c ≠ '\n')
    some ('#' :: '#' :: ' ' :: g2 ++ ['\n'], r2.dropWhile (fun c => c ≠ '\n'))
  else none

/-- Non-global multiline replace (`.replace(re, t)` with flag `m` only):
scan left to right, attempt the anchored matcher at the start and after each
newline, and splice in the first match. `atStart` records whether the current
position is a line start. -/
def replaceFirstAnchored (m : List Char → Option (List Char × List Char)) :
    Bool → List Char → List Char
  | _, [] => []
  | atStart, c :: cs =>
      match (if atStart then m (c :: cs) else none) with
      | some (rep, rest) => rep ++ rest
      | none => c :: replaceFirstAnchored m (c = '\n') cs

/-- Global replace (`.replace(re, t)` with flags `gm`, unanchored pattern):
scan left to right, splice in every match and resume after its consumed part.
Every matcher here consumes at least one character, and JavaScript does not
rescan the replacement text, so fuel equal to the scanned length suffices;
the fuel-exhausted branch is unreachable from `replaceAll`. -/
def replaceAllGo (m : List Char → Option (List Char × List Char)) :
    Nat → List Char → List Char
  | _, [] => []
  | 0, s => s
  | fuel + 1, c :: cs =>
      match m (c :: cs) with
      | some (rep, rest) => rep ++ replaceAllGo m fuel rest
      | none => c :: replaceAllGo m fuel cs

/-- Global unanchored replace at full fuel. -/
def replaceAll (m : List Char → Option (List Char × List Char))
    (s : List Char) : List Char :=
  replaceAllGo m s.length s

/-- Global multiline replace for a `^`-anchored pattern: as `replaceAllGo`,
but the matcher only fires at line starts. A match never ends right after a
newline unless the whole rest was consumed, so scanning resumes mid-line. -/
def replaceAllAnchoredGo (m : List Char → Option (List Char × List Char)) :
    Nat → Bool → List Char → List Char
  | _, _, [] => []
  | 0, _, s => s
  | fuel + 1, atStart, c :: cs =>
      match (if atStart then m (c :: cs) else none) with
      | some (rep, rest) => rep ++ replaceAllAnchoredGo m fuel false rest
      | none => c :: replaceAllAnchoredGo m fuel (c = '\n') cs

/-- Global anchored replace at full fuel, starting at a line start. -/
def replaceAllAnchored (m : List Char → Option (List Char × List Char))
    (s : List Char) : List Char :=
  replaceAllAnchoredGo m s.length true s

/-- The normalization performed by the `useEffect` (lines 266-292) on the
message `content` for the given `role`, producing `formattedContent`. The
second branch's condition `!content.includes('##') && content.includes('##')`
is contradictory and never fires, but is kept as written. -/
def processContent (role : Role) (content : List Char) : List Char :=
  let processed := content
  let processed :=
    if role = .assistant && !listStarts ['#'] content
        && hasSubstr "Title:".toList content then
      replaceFirstAnchored matchTitleAt true content
    else processed
  let processed :=
    if role = .assistant && !hasSubstr "##".toList content
        && hasSubstr "##".toList content then
      replaceAllAnchored matchHashLooseAt processed
    else processed
  if role = .assistant then
    replaceAllAnchored matchHashAt (replaceAll matchBoldNumAt processed)
  else processed

end Renderer

/-- A trivial timestamp rendering, used to instantiate `toIso` at concrete
inputs. -/
def emptyIso : Int → String := fun _ => ""

/-! ## Shared lemmas -/

theorem listStarts_append {pat t : List Char} (u : List Char)
    (h : listStarts pat t = true) : listStarts pat (t ++ u) = true := by
  induction pat generalizing t with
  | nil => simp [listStarts]
  | cons p ps ih =>
      cases t with
      | nil => simp [listStarts] at h
      | cons c cs =>
          simp only [listStarts, Bool.and_eq_true] at h ⊢
          exact ⟨h.1, ih h.2⟩

theorem hasSubstr_of_starts {pat s : List Char} (h : listStarts pat s = true) :
    hasSubstr pat s = true := by
  cases s with
  | nil => simpa [hasSubstr] using h
  | cons c cs => simp [hasSubstr, h]

theorem hasSubstr_append_left {pat xs : List Char} (ys : List Char)
    (h : hasSubstr pat xs = true) : hasSubstr pat (xs ++ ys) = true := by
  induction xs with
  | nil =>
      cases pat with
      | nil => exact hasSubstr_of_starts (by simp [listStarts])
      | cons p ps => simp [hasSubstr, listStarts] at h
  | cons c cs ih =>
      simp only [hasSubstr, Bool.or_eq_true] at h
      rcases h with h | h
      · exact hasSubstr_of_starts (by simpa using listStarts_append ys h)
      · have hys := ih h
        simp only [List.cons_append, hasSubstr] at hys ⊢
        simp [hys]

theorem takeWhile_append_all {p : Char → Bool} {xs : List Char} (ys : List Char)
    (h : ∀ c ∈ xs, p c = true) :
    (xs ++ ys).takeWhile p = xs ++ ys.takeWhile p := by
  induction xs with
  | nil => simp
  | cons c cs ih =>
      have hc : p c = true := h c (by simp)
      simp [List.takeWhile_cons, hc, ih (fun d hd => h d (by simp [hd]))]

theorem dropWhile_append_all {p : Char → Bool} {xs : List Char} (ys : List Char)
    (h : ∀ c ∈ xs, p c = true) :
    (xs ++ ys).dropWhile p = ys.dropWhile p := by
  induction xs with
  | nil => simp
  | cons c cs ih =>
      have hc : p c = true := h c (by simp)
      simp [List.dropWhile_cons, hc, ih (fun d hd => h d (by simp [hd]))]

/-! ## Claim C4: error propagation of the API client -/

/-- C4 counterexample: `deleteSession` on a non-2xx response does not raise;
it returns the normal result value `{ success: false, message: ... }`, so the
claim that every API-client operation raises on an unsuccessful status is
false for `deleteSession`. -/
theorem deleteSession_returns_value_on_http_error :
    AgentApi.deleteSession (FetchOutcome.httpError 500 "Internal Server Error")
      = Except.ok
          { success := false,
            message := "Error deleting session: Failed to delete session: Internal Server Error" } :=
  rfl

/-- C4 amended: on a non-successful HTTP status, `createSession`,
`sendMessage`, `getSession`, `getPersonalityPresets` and `scrapeWebsite`
raise an error to the caller, while `getAllSessions` returns the fixed mock
list and `deleteSession` returns a `{ success: false }` value. -/
theorem apiClient_http_error_behaviour (status : Nat) (statusText : String)
    (req : WebsiteScrapeRequest) (now : Int) (toIso : Int → String) :
    AgentApi.createSession (FetchOutcome.httpError status statusText)
        = Except.error ("Failed to create session: " ++ statusText) ∧
    AgentApi.sendMessage (FetchOutcome.httpError status statusText)
        = Except.error ("Failed to send message: " ++ statusText) ∧
    AgentApi.getSession (FetchOutcome.httpError status statusText)
        = Except.error ("Failed to get session: " ++ statusText) ∧
    AgentApi.getPersonalityPresets (FetchOutcome.httpError status statusText)
        = Except.error ("Failed to get personality presets: " ++ statusText) ∧
    AgentApi.scrapeWebsite req (FetchOutcome.httpError status statusText)
        = Except.error ("Failed to scrape website: " ++ statusText) ∧
    AgentApi.getAllSessions now toIso (FetchOutcome.httpError status statusText)
        = Except.ok (AgentApi.mockSessions now toIso) ∧
    AgentApi.deleteSession (FetchOutcome.httpError status statusText)
        = Except.ok
            { success := false,
              message := "Error deleting session: " ++
                ("Failed to delete session: " ++ statusText) } := by
  refine ⟨rfl, rfl, rfl, rfl, rfl, rfl, rfl⟩

/-! ## Claim C7: `getAllSessions` fallback -/

/-- C7 counterexample: a non-2xx HTTP response to `getAllSessions` is not a
raised error; it also yields the mock list, because the throw on
`!response.ok` happens inside the `try` whose `catch` returns the mock
data. -/
theorem getAllSessions_mock_on_http_error :
    AgentApi.getAllSessions 0 emptyIso (FetchOutcome.httpError 500 "Internal Server Error")
      = Except.ok (AgentApi.mockSessions 0 emptyIso) :=
  rfl

/-- C7 amended: `getAllSessions` returns the parsed session list on success
and the fixed mock list on every failure — network errors and non-2xx HTTP
responses alike. -/
theorem getAllSessions_behaviour (now : Int) (toIso : Int → String)
    (v : List ChatSession) (status : Nat) (statusText m : String) :
    AgentApi.getAllSessions now toIso (FetchOutcome.ok v) = Except.ok v ∧
    AgentApi.getAllSessions now toIso (FetchOutcome.httpError status statusText)
        = Except.ok (AgentApi.mockSessions now toIso) ∧
    AgentApi.getAllSessions now toIso (FetchOutcome.networkError m)
        = Except.ok (AgentApi.mockSessions now toIso) :=
  ⟨rfl, rfl, rfl⟩

/-! ## Claim C5: URL targeted by the context's `sendMessage` -/

/-- C5 counterexample: a send through the context's `sendMessage` issues its
chat request against the hardcoded `http://localhost:8000/chat`, which is not
the URL the API client would use under the configured base URL (environment
variable unset, so the fallback host applies). -/
theorem sendUserMessage_targets_hardcoded_url :
    (AgentContext.sendUserMessage
        (⟨true, false, some "s1", [], [], ⟨defaultOrganizationSettings⟩,
          [("lastSessionId", "s1")]⟩ : AgentState)
        "Hi" (Except.ok ⟨"s2", "ok"⟩) (.okResponse "Hello!")).2
      = [Request.contextDirectChat "s1" "Hi"] ∧
    requestUrl none (Request.contextDirectChat "s1" "Hi") = "http://localhost:8000/chat" ∧
    requestUrl none (Request.contextDirectChat "s1" "Hi")
      ≠ requestUrl none (Request.clientChat "s1" "Hi") := by
  refine ⟨rfl, rfl, ?_⟩
  decide

/-- C5 amended: with a session present, the context's `sendMessage` always
issues its chat request through the direct `window.fetch` call site, whose
URL is the hardcoded `http://localhost:8000/chat` for every environment
configuration; the API client's chat endpoint, by contrast, is derived from
the configured base URL. -/
theorem sendUserMessage_chat_request_url (ini load : Bool) (sid : String)
    (msgs : List ChatMessage) (ss : List ChatSession) (cset : CurrentSettings)
    (st : Store) (msg : String) (createResult : Except String SessionResponse)
    (chat : AgentContext.DirectChatOutcome) (env : Option String) :
    (AgentContext.sendUserMessage (⟨ini, load, some sid, msgs, ss, cset, st⟩ : AgentState)
        msg createResult chat).2.head? = some (Request.contextDirectChat sid msg) ∧
    requestUrl env (Request.contextDirectChat sid msg) = "http://localhost:8000/chat" ∧
    requestUrl env (Request.clientChat sid msg) = API_BASE_URL env ++ "/chat" := by
  refine ⟨?_, rfl, rfl⟩
  cases chat <;> simp [AgentContext.sendUserMessage] <;> split <;> simp

/-! ## Claim C10: failed `initializeSession` leaves the state unchanged -/

/-- C10: when the backend session creation fails, `initializeSession`
swallows the error (it only logs and alerts), so it resolves without
throwing; the session id, messages, settings, initialized flag, session
list and the whole persisted storage (including `lastSessionId`) keep their
prior values, the loading flag ends up false, and exactly the one creation
request was issued. -/
theorem initializeSession_failure_frame (s : AgentState)
    (settings : OrganizationSettings) (err : String) :
    (AgentContext.initializeSession s settings (Except.error err)).1.sessionId = s.sessionId ∧
    (AgentContext.initializeSession s settings (Except.error err)).1.messages = s.messages ∧
    (AgentContext.initializeSession s settings (Except.error err)).1.currentSettings = s.currentSettings ∧
    (AgentContext.initializeSession s settings (Except.error err)).1.isInitialized = s.isInitialized ∧
    (AgentContext.initializeSession s settings (Except.error err)).1.sessions = s.sessions ∧
    (AgentContext.initializeSession s settings (Except.error err)).1.store = s.store ∧
    getItem (AgentContext.initializeSession s settings (Except.error err)).1.store "lastSessionId"
      = getItem s.store "lastSessionId" ∧
    (AgentContext.initializeSession s settings (Except.error err)).1.isLoading = false ∧
    (AgentContext.initializeSession s settings (Except.error err)).2
      = [Request.createSession settings] :=
  ⟨rfl, rfl, rfl, rfl, rfl, rfl, rfl, rfl, rfl⟩

/-! ## Claim C8: settings mutators touch only their own field -/

/-- C8: each settings mutator updates exactly its field of the in-memory
organization settings; the other settings fields, the session id, the
messages, the session summaries and the persisted storage are untouched, and
no request is issued. -/
theorem settings_mutators_frame (s : AgentState) (p : PersonalitySettings)
    (b : BackgroundInfo) (n : String) :
    (AgentContext.updatePersonality s p).1.currentSettings.organization.personality = p ∧
    (AgentContext.updatePersonality s p).1.currentSettings.organization.name
        = s.currentSettings.organization.name ∧
    (AgentContext.updatePersonality s p).1.currentSettings.organization.background
        = s.currentSettings.organization.background ∧
    (AgentContext.updatePersonality s p).1.currentSettings.organization.tools
        = s.currentSettings.organization.tools ∧
    (AgentContext.updatePersonality s p).1.sessionId = s.sessionId ∧
    (AgentContext.updatePersonality s p).1.messages = s.messages ∧
    (AgentContext.updatePersonality s p).1.sessions = s.sessions ∧
    (AgentContext.updatePersonality s p).1.store = s.store ∧
    (AgentContext.updatePersonality s p).1.isInitialized = s.isInitialized ∧
    (AgentContext.updatePersonality s p).1.isLoading = s.isLoading ∧
    (AgentContext.updatePersonality s p).2 = [] ∧
    (AgentContext.updateBackground s b).1.currentSettings.organization.background = b ∧
    (AgentContext.updateBackground s b).1.currentSettings.organization.name
        = s.currentSettings.organization.name ∧
    (AgentContext.updateBackground s b).1.currentSettings.organization.personality
        = s.currentSettings.organization.personality ∧
    (AgentContext.updateBackground s b).1.currentSettings.organization.tools
        = s.currentSettings.organization.tools ∧
    (AgentContext.updateBackground s b).1.sessionId = s.sessionId ∧
    (AgentContext.updateBackground s b).1.messages = s.messages ∧
    (AgentContext.updateBackground s b).1.sessions = s.sessions ∧
    (AgentContext.updateBackground s b).1.store = s.store ∧
    (AgentContext.updateBackground s b).2 = [] ∧
    (AgentContext.updateOrganizationName s n).1.currentSettings.organization.name = n ∧
    (AgentContext.updateOrganizationName s n).1.currentSettings.organization.personality
        = s.currentSettings.organization.personality ∧
    (AgentContext.updateOrganizationName s n).1.currentSettings.organization.background
        = s.currentSettings.organization.background ∧
    (AgentContext.updateOrganizationName s n).1.currentSettings.organization.tools
        = s.currentSettings.organization.tools ∧
    (AgentContext.updateOrganizationName s n).1.sessionId = s.sessionId ∧
    (AgentContext.updateOrganizationName s n).1.messages = s.messages ∧
    (AgentContext.updateOrganizationName s n).1.sessions = s.sessions ∧
    (AgentContext.updateOrganizationName s n).1.store = s.store ∧
    (AgentContext.updateOrganizationName s n).2 = [] := by
  repeat constructor

/-! ## Claim C6: `deleteSession` on the context -/

theorem getItem_removeItem (st : Store) (k : String) :
    getItem (removeItem st k) k = none := by
  induction st with
  | nil => rfl
  | cons kv rest ih =>
      simp only [removeItem, List.filter_cons] at ih ⊢
      by_cases h : kv.1 = k
      · simp only [h, ne_eq, not_true_eq_false, decide_False]
        exact ih
      · simp only [ne_eq, h, not_false_eq_true, decide_True]
        simp only [getItem, List.find?] at ih ⊢
        simp only [h, decide_False]
        exact ih

/-- C6: deleting the active session clears the active id, empties the
message list, removes the persisted `lastSessionId`, and removes the id from
the session summary list; deleting a non-active session leaves the active id
and the message list exactly as they were. -/
theorem deleteSessionById_spec (s : AgentState) (id : String) :
    (s.sessionId = some id →
      (AgentContext.deleteSessionById s id).1.sessionId = none ∧
      (AgentContext.deleteSessionById s id).1.messages = [] ∧
      getItem (AgentContext.deleteSessionById s id).1.store "lastSessionId" = none ∧
      id ∉ (AgentContext.deleteSessionById s id).1.sessions.map ChatSession.session_id) ∧
    (s.sessionId ≠ some id →
      (AgentContext.deleteSessionById s id).1.sessionId = s.sessionId ∧
      (AgentContext.deleteSessionById s id).1.messages = s.messages) := by
  constructor
  · intro h
    refine ⟨?_, ?_, ?_, ?_⟩ <;>
      simp [AgentContext.deleteSessionById, h, getItem_removeItem]
  · intro h
    constructor <;> simp [AgentContext.deleteSessionById, h]

/-- C6 witness: a state whose active session `"a"` is deleted loses its id,
messages, persisted id and summary entry, while deleting the non-active
`"b"` from another state leaves id and messages alone. -/
theorem deleteSessionById_spec_witness :
    ((AgentContext.deleteSessionById
        (⟨true, false, some "a", [⟨.user, "hi"⟩],
          [⟨"a", [], none, none, none⟩, ⟨"b", [], none, none, none⟩],
          ⟨defaultOrganizationSettings⟩, [("lastSessionId", "a")]⟩ : AgentState)
        "a").1.sessionId = none ∧
      (AgentContext.deleteSessionById
        (⟨true, false, some "a", [⟨.user, "hi"⟩],
          [⟨"a", [], none, none, none⟩, ⟨"b", [], none, none, none⟩],
          ⟨defaultOrganizationSettings⟩, [("lastSessionId", "a")]⟩ : AgentState)
        "a").1.messages = [] ∧
      getItem (AgentContext.deleteSessionById
        (⟨true, false, some "a", [⟨.user, "hi"⟩],
          [⟨"a", [], none, none, none⟩, ⟨"b", [], none, none, none⟩],
          ⟨defaultOrganizationSettings⟩, [("lastSessionId", "a")]⟩ : AgentState)
        "a").1.store "lastSessionId" = none ∧
      "a" ∉ (AgentContext.deleteSessionById
        (⟨true, false, some "a", [⟨.user, "hi"⟩],
          [⟨"a", [], none, none, none⟩, ⟨"b", [], none, none, none⟩],
          ⟨defaultOrganizationSettings⟩, [("lastSessionId", "a")]⟩ : AgentState)
        "a").1.sessions.map ChatSession.session_id) ∧
    ((AgentContext.deleteSessionById
        (⟨true, false, some "a", [⟨.user, "hi"⟩],
          [⟨"a", [], none, none, none⟩, ⟨"b", [], none, none, none⟩],
          ⟨defaultOrganizationSettings⟩, [("lastSessionId", "a")]⟩ : AgentState)
        "b").1.sessionId = some "a" ∧
      (AgentContext.deleteSessionById
        (⟨true, false, some "a", [⟨.user, "hi"⟩],
          [⟨"a", [], none, none, none⟩, ⟨"b", [], none, none, none⟩],
          ⟨defaultOrganizationSettings⟩, [("lastSessionId", "a")]⟩ : AgentState)
        "b").1.messages = [⟨.user, "hi"⟩]) := by
  refine ⟨(deleteSessionById_spec _ "a").1 rfl, ?_⟩
  have h := (deleteSessionById_spec
      (⟨true, false, some "a", [⟨.user, "hi"⟩],
        [⟨"a", [], none, none, none⟩, ⟨"b", [], none, none, none⟩],
        ⟨defaultOrganizationSettings⟩, [("lastSessionId", "a")]⟩ : AgentState)
      "b").2 (by decide)
  exact h

/-! ## Claim C3: load/create operations keep id and messages consistent -/

theorem sessionConsistent_step (backend : String → Except String ChatSession)
    (s : AgentState) (e : AgentContext.SessionEv)
    (h : AgentContext.sessionConsistent backend s) :
    AgentContext.sessionConsistent backend (AgentContext.stepEv backend s e) := by
  cases e with
  | loadStart => exact Or.inl rfl
  | loadResolve sid =>
      cases hb : backend sid with
      | ok sess =>
          refine Or.inr ⟨sid, sess, ?_, hb, ?_⟩ <;>
            simp [AgentContext.stepEv, AgentContext.loadResolveStep, hb]
      | error err =>
          simpa [AgentContext.sessionConsistent, AgentContext.stepEv,
            AgentContext.loadResolveStep, hb] using h
  | loadSessions ss =>
      simpa [AgentContext.sessionConsistent, AgentContext.stepEv,
        AgentContext.loadSessionsStep] using h
  | initStart =>
      simpa [AgentContext.sessionConsistent, AgentContext.stepEv] using h
  | initResolve settings r =>
      cases r with
      | ok v => exact Or.inl (by simp [AgentContext.stepEv, AgentContext.initResolveStep])
      | error err =>
          simpa [AgentContext.sessionConsistent, AgentContext.stepEv,
            AgentContext.initResolveStep] using h
  | newChatClear => exact Or.inl rfl
  | deleteResolve sid =>
      by_cases hs : s.sessionId = some sid
      · exact Or.inl (by simp [AgentContext.stepEv, AgentContext.deleteSessionById, hs])
      · simpa [AgentContext.sessionConsistent, AgentContext.stepEv,
          AgentContext.deleteSessionById, hs] using h

theorem runEvents_consistent (backend : String → Except String ChatSession)
    (evs : List AgentContext.SessionEv) :
    ∀ s : AgentState, AgentContext.sessionConsistent backend s →
      AgentContext.sessionConsistent backend (AgentContext.runEvents backend s evs) := by
  induction evs with
  | nil => exact fun s h => h
  | cons e rest ih =>
      intro s h
      exact ih _ (sessionConsistent_step backend s e h)

/-- C3: along every interleaving of the synchronous segments of
`loadSession`, `initializeSession`, `createNewSession` and the context's
`deleteSession` — including a load overlapping a still-pending one — the
context never holds a session id paired with another session's messages:
its message list is always either cleared or exactly the backend's messages
for the active id, because every resolving segment replaces the id and the
messages together. -/
theorem loadCreate_interleaving_consistent
    (backend : String → Except String ChatSession) (st : Store)
    (evs : List AgentContext.SessionEv) :
    AgentContext.sessionConsistent backend
      (AgentContext.runEvents backend (initialAgentState st) evs) :=
  runEvents_consistent backend evs _ (Or.inl rfl)

/-! ## Claim C1: session bootstrap on a send without a session -/

/-- C1: with no active session, a send through the context creates exactly
one session (which succeeds, is persisted, and is reused by the next send),
but the freshly obtained id is never used to post the chat request: the
stale closure variable `sessionId` is still `null` after the successful
`initializeSession`, so the call replaces the message list with the
initialization-failure bubble and returns without issuing any `/chat`
request. The page's own `handleSubmit`, by contrast, conforms to the claim:
it creates one session, posts the chat with the returned id, persists it,
and a subsequent submit reuses it without creating another session. -/
theorem sendUserMessage_no_session_eval :
    (AgentContext.sendUserMessage
        (⟨false, false, none, [], [], ⟨defaultOrganizationSettings⟩, []⟩ : AgentState)
        "Hi" (Except.ok ⟨"abc", "Session created"⟩) (.okResponse "Hello!")).2
      = [Request.createSession defaultOrganizationSettings] ∧
    (AgentContext.sendUserMessage
        (⟨false, false, none, [], [], ⟨defaultOrganizationSettings⟩, []⟩ : AgentState)
        "Hi" (Except.ok ⟨"abc", "Session created"⟩) (.okResponse "Hello!")).1.sessionId
      = some "abc" ∧
    (AgentContext.sendUserMessage
        (⟨false, false, none, [], [], ⟨defaultOrganizationSettings⟩, []⟩ : AgentState)
        "Hi" (Except.ok ⟨"abc", "Session created"⟩) (.okResponse "Hello!")).1.messages
      = [AgentContext.initFailureMsg] ∧
    (AgentContext.sendUserMessage
        ((AgentContext.sendUserMessage
            (⟨false, false, none, [], [], ⟨defaultOrganizationSettings⟩, []⟩ : AgentState)
            "Hi" (Except.ok ⟨"abc", "Session created"⟩) (.okResponse "Hello!")).1)
        "Hi again" (Except.ok ⟨"zzz", "x"⟩) (.okResponse "Hello!")).2
      = [Request.contextDirectChat "abc" "Hi again"] ∧
    (Page.handleSubmit "Hi" false false [] [] defaultOrganizationSettings
        (.ok ⟨"abc", "ok"⟩) (.okResponse "Hello!")).requests
      = [Request.pageCreateSession defaultOrganizationSettings, Request.pageChat "abc" "Hi"] ∧
    (Page.handleSubmit "Hi" false false [] [] defaultOrganizationSettings
        (.ok ⟨"abc", "ok"⟩) (.okResponse "Hello!")).messages
      = [⟨.user, "Hi"⟩, ⟨.assistant, "Hello!"⟩] ∧
    (Page.handleSubmit "Again" false false
        [⟨.user, "Hi"⟩, ⟨.assistant, "Hello!"⟩]
        (Page.handleSubmit "Hi" false false [] [] defaultOrganizationSettings
          (.ok ⟨"abc", "ok"⟩) (.okResponse "Hello!")).store
        defaultOrganizationSettings
        (.ok ⟨"zzz", "x"⟩) (.okResponse "Sure.")).requests
      = [Request.pageChat "abc" "Again"] := by
  refine ⟨rfl, rfl, rfl, ?_, ?_, ?_, ?_⟩ <;> decide

/-! ## Claim C2: message list after a 404 on `/chat` -/

/-- C2 counterexample: on a 404 from `/chat` with a successful
re-initialization, the final context message list is just the single
"new session created" notice — the "session expired" notice and the
optimistic user message were wiped by `initializeSession`'s
`setMessages([])` — so it does not contain exactly one expired notice
followed by the created notice with the user message appearing once. -/
theorem sendUserMessage_404_wipes_messages :
    (AgentContext.sendUserMessage
        (⟨true, false, some "s1", [], [], ⟨defaultOrganizationSettings⟩,
          [("lastSessionId", "s1")]⟩ : AgentState)
        "Hi" (Except.ok ⟨"s2", "ok"⟩) (.httpError 404 "Not Found")).1.messages
      = [AgentContext.newSessionMsg] ∧
    AgentContext.sessionExpiredMsg ∉
      (AgentContext.sendUserMessage
        (⟨true, false, some "s1", [], [], ⟨defaultOrganizationSettings⟩,
          [("lastSessionId", "s1")]⟩ : AgentState)
        "Hi" (Except.ok ⟨"s2", "ok"⟩) (.httpError 404 "Not Found")).1.messages ∧
    (⟨.user, "Hi"⟩ : ChatMessage) ∉
      (AgentContext.sendUserMessage
        (⟨true, false, some "s1", [], [], ⟨defaultOrganizationSettings⟩,
          [("lastSessionId", "s1")]⟩ : AgentState)
        "Hi" (Except.ok ⟨"s2", "ok"⟩) (.httpError 404 "Not Found")).1.messages := by
  refine ⟨rfl, ?_, ?_⟩ <;> decide

/-- C2 amended: on a 404 from `/chat` the context appends one expired notice
and then re-initializes; when the re-initialization succeeds it clears the
whole message list, so the final list is exactly the single "new session
created" notice (the expired notice and the user message are gone); when the
re-initialization fails, the list is the prior messages followed by the user
message, the expired notice and the created notice. In both cases the chat
request precedes the (single) session re-creation request. -/
theorem sendUserMessage_404_behaviour (ini load : Bool) (sid msg statusText : String)
    (msgs : List ChatMessage) (ss : List ChatSession) (cset : CurrentSettings)
    (st : Store) (r : SessionResponse) (e : String) :
    (AgentContext.sendUserMessage (⟨ini, load, some sid, msgs, ss, cset, st⟩ : AgentState)
        msg (Except.ok r) (.httpError 404 statusText)).1.messages
      = [AgentContext.newSessionMsg] ∧
    (AgentContext.sendUserMessage (⟨ini, load, some sid, msgs, ss, cset, st⟩ : AgentState)
        msg (Except.ok r) (.httpError 404 statusText)).2
      = [Request.contextDirectChat sid msg, Request.createSession cset.organization] ∧
    (AgentContext.sendUserMessage (⟨ini, load, some sid, msgs, ss, cset, st⟩ : AgentState)
        msg (Except.error e) (.httpError 404 statusText)).1.messages
      = msgs ++ [⟨.user, msg⟩, AgentContext.sessionExpiredMsg, AgentContext.newSessionMsg] ∧
    (AgentContext.sendUserMessage (⟨ini, load, some sid, msgs, ss, cset, st⟩ : AgentState)
        msg (Except.error e) (.httpError 404 statusText)).2
      = [Request.contextDirectChat sid msg, Request.createSession cset.organization] := by
  have h404 : strContains
      (AgentContext.chatErrString (.httpError 404 statusText)) "404" = true := by
    have hx : ∀ l : List Char,
        hasSubstr "404".toList ("Error: API error: 404 ".toList ++ l) = true :=
      fun l => hasSubstr_append_left l (by decide)
    exact hx statusText.toList
  refine ⟨?_, ?_, ?_, ?_⟩ <;>
    simp [AgentContext.sendUserMessage, AgentContext.initializeSession,
      AgentContext.initResolveStep, h404]

/-! ## Claim C9: renderer normalization -/

theorem listStarts_dropWhile_false {p : Char} {ps : List Char} (q : Char → Bool) :
    ∀ s : List Char, hasSubstr (p :: ps) s = false →
      listStarts (p :: ps) (s.dropWhile q) = false := by
  intro s
  induction s with
  | nil => intro _; simp [List.dropWhile, listStarts]
  | cons c cs ih =>
      intro h
      simp only [hasSubstr, Bool.or_eq_false_iff] at h
      rw [List.dropWhile_cons]
      by_cases hq : q c = true
      · simpa [hq] using ih h.2
      · simpa [hq] using h.1

theorem matchBoldNumAt_none {s : List Char}
    (h : hasSubstr ['*', '*'] s = false) : Renderer.matchBoldNumAt s = none := by
  have hs : listStarts ['*', '*'] s = false := by
    cases s with
    | nil => decide
    | cons c cs =>
        simp only [hasSubstr, Bool.or_eq_false_iff] at h
        exact h.1
  simp [Renderer.matchBoldNumAt, hs]

theorem replaceAllGo_boldnum_id :
    ∀ (n : Nat) (s : List Char), hasSubstr ['*', '*'] s = false →
      Renderer.replaceAllGo Renderer.matchBoldNumAt n s = s := by
  intro n
  induction n with
  | zero => intro s _; cases s <;> rfl
  | succ n ih =>
      intro s h
      cases s with
      | nil => rfl
      | cons c cs =>
          have h2 : hasSubstr ['*', '*'] cs = false := by
            simp only [hasSubstr, Bool.or_eq_false_iff] at h
            exact h.2
          simp [Renderer.replaceAllGo, matchBoldNumAt_none h, ih cs h2]

theorem matchHashAt_none {s : List Char}
    (h : hasSubstr ['#', '#'] s = false) : Renderer.matchHashAt s = none := by
  have hs : listStarts ['#', '#'] (s.dropWhile isWs) = false :=
    listStarts_dropWhile_false isWs s h
  simp [Renderer.matchHashAt, hs]

theorem replaceAllAnchoredGo_hash_id :
    ∀ (n : Nat) (b : Bool) (s : List Char), hasSubstr ['#', '#'] s = false →
      Renderer.replaceAllAnchoredGo Renderer.matchHashAt n b s = s := by
  intro n
  induction n with
  | zero => intro b s _; cases s <;> rfl
  | succ n ih =>
      intro b s h
      cases s with
      | nil => rfl
      | cons c cs =>
          have h2 : hasSubstr ['#', '#'] cs = false := by
            simp only [hasSubstr, Bool.or_eq_false_iff] at h
            exact h.2
          simp [Renderer.replaceAllAnchoredGo, matchHashAt_none h, ih _ cs h2]

theorem matchTitleAt_family (t0 : Char) (ts rest : List Char)
    (h0 : isWs t0 = false) (hts : ∀ c ∈ ts, c ≠ '\n') :
    Renderer.matchTitleAt
        ('T' :: 'i' :: 't' :: 'l' :: 'e' :: ':' :: ' ' :: t0 :: (ts ++ '\n' :: rest))
      = some ('#' :: ' ' :: ((t0 :: ts) ++ ['\n']), '\n' :: rest) := by
  have ht0 : t0 ≠ '\n' := by
    intro hne
    rw [hne] at h0
    exact absurd h0 (by decide)
  have hall : ∀ c ∈ t0 :: ts, decide (c ≠ '\n') = true := by
    intro c hc
    rw [List.mem_cons] at hc
    rcases hc with rfl | hc
    · simp [ht0]
    · simp [hts c hc]
  have hC : List.takeWhile (fun c => decide (c ≠ '\n')) (t0 :: (ts ++ '\n' :: rest))
      = t0 :: ts := by
    have := takeWhile_append_all (p := fun c => decide (c ≠ '\n')) ('\n' :: rest) hall
    simpa using this
  have hD : List.dropWhile (fun c => decide (c ≠ '\n')) (t0 :: (ts ++ '\n' :: rest))
      = '\n' :: rest := by
    have := dropWhile_append_all (p := fun c => decide (c ≠ '\n')) ('\n' :: rest) hall
    simpa using this
  have hE : List.dropWhile isWs (' ' :: t0 :: (ts ++ '\n' :: rest))
      = t0 :: (ts ++ '\n' :: rest) := by
    rw [List.dropWhile_cons]
    simp only [show isWs ' ' = true from rfl, if_true]
    rw [List.dropWhile_cons]
    simp [h0]
  simp only [Renderer.matchTitleAt]
  rw [show List.dropWhile isWs
        ('T' :: 'i' :: 't' :: 'l' :: 'e' :: ':' :: ' ' :: t0 :: (ts ++ '\n' :: rest))
      = 'T' :: 'i' :: 't' :: 'l' :: 'e' :: ':' :: ' ' :: t0 :: (ts ++ '\n' :: rest) from rfl]
  rw [show listStarts "Title:".toList
        ('T' :: 'i' :: 't' :: 'l' :: 'e' :: ':' :: ' ' :: t0 :: (ts ++ '\n' :: rest)) = true from rfl]
  rw [show List.drop 6
        ('T' :: 'i' :: 't' :: 'l' :: 'e' :: ':' :: ' ' :: t0 :: (ts ++ '\n' :: rest))
      = ' ' :: t0 :: (ts ++ '\n' :: rest) from rfl]
  rw [hE, hC, hD]
  simp

theorem processContent_title (t0 : Char) (ts rest : List Char)
    (h0 : isWs t0 = false) (hts : ∀ c ∈ ts, c ≠ '\n')
    (hstar : hasSubstr ['*', '*'] ('#' :: ' ' :: t0 :: (ts ++ '\n' :: '\n' :: rest)) = false)
    (hhash : hasSubstr ['#', '#'] ('#' :: ' ' :: t0 :: (ts ++ '\n' :: '\n' :: rest)) = false) :
    Renderer.processContent .assistant
        ('T' :: 'i' :: 't' :: 'l' :: 'e' :: ':' :: ' ' :: t0 :: (ts ++ '\n' :: rest))
      = '#' :: ' ' :: t0 :: (ts ++ '\n' :: '\n' :: rest) := by
  have hT : hasSubstr "Title:".toList
      ('T' :: 'i' :: 't' :: 'l' :: 'e' :: ':' :: ' ' :: t0 :: (ts ++ '\n' :: rest)) = true :=
    hasSubstr_of_starts rfl
  have hsharp : listStarts ['#']
      ('T' :: 'i' :: 't' :: 'l' :: 'e' :: ':' :: ' ' :: t0 :: (ts ++ '\n' :: rest)) = false := rfl
  have hrep : Renderer.replaceFirstAnchored Renderer.matchTitleAt true
      ('T' :: 'i' :: 't' :: 'l' :: 'e' :: ':' :: ' ' :: t0 :: (ts ++ '\n' :: rest))
      = '#' :: ' ' :: t0 :: (ts ++ '\n' :: '\n' :: rest) := by
    rw [Renderer.replaceFirstAnchored]
    simp [matchTitleAt_family t0 ts rest h0 hts]
  simp only [Renderer.processContent, hT, hsharp]
  cases h2 : hasSubstr "##".toList
      ('T' :: 'i' :: 't' :: 'l' :: 'e' :: ':' :: ' ' :: t0 :: (ts ++ '\n' :: rest))
  all_goals
    simp only [h2, hrep, Renderer.replaceAll, Renderer.replaceAllAnchored, Bool.not_true,
      Bool.not_false, Bool.and_true, Bool.and_false, Bool.false_and, Bool.true_and,
      decide_True, Bool.false_eq_true, if_true, if_false, ite_false, ite_true]
  all_goals
    rw [replaceAllGo_boldnum_id _ _ hstar, replaceAllAnchoredGo_hash_id _ _ _ hhash]

theorem matchBoldNumAt_family (d body : List Char) (hd : d ≠ [])
    (hdig : ∀ c ∈ d, Renderer.isDigit c = true) (hbody : ∀ c ∈ body, c ≠ '\n') :
    Renderer.matchBoldNumAt ('*' :: '*' :: (d ++ '.' :: '*' :: '*' :: (body ++ ['\n'])))
      = some (d ++ '.' :: ' ' :: (body ++ ['\n']), ['\n']) := by
  have hDT : List.takeWhile Renderer.isDigit (d ++ '.' :: '*' :: '*' :: (body ++ ['\n'])) = d := by
    rw [takeWhile_append_all _ hdig, List.takeWhile_cons]
    simp [show Renderer.isDigit '.' = false from by decide]
  have hg3 : List.takeWhile (fun c => decide (c ≠ '\n')) (body ++ ['\n']) = body := by
    have hall : ∀ c ∈ body, decide (c ≠ '\n') = true := by
      intro c hc
      simp [hbody c hc]
    rw [takeWhile_append_all _ hall]
    simp
  have hd3 : List.dropWhile (fun c => decide (c ≠ '\n')) (body ++ ['\n']) = ['\n'] := by
    have hall : ∀ c ∈ body, decide (c ≠ '\n') = true := by
      intro c hc
      simp [hbody c hc]
    rw [dropWhile_append_all _ hall]
    rfl
  simp only [Renderer.matchBoldNumAt]
  rw [show listStarts "**".toList
        ('*' :: '*' :: (d ++ '.' :: '*' :: '*' :: (body ++ ['\n']))) = true from rfl]
  rw [show ('*' :: '*' :: (d ++ '.' :: '*' :: '*' :: (body ++ ['\n'])) : List Char).drop 2
        = d ++ '.' :: '*' :: '*' :: (body ++ ['\n']) from rfl]
  simp only [hDT, if_true, if_false, ite_false, ite_true, List.drop_left]
  simp only [show (d = []) = False from by simp [hd], if_false, ite_false]
  rw [show listStarts "**".toList ('*' :: '*' :: (body ++ ['\n'])) = true from rfl]
  rw [show (('*' :: '*' :: (body ++ ['\n'])) : List Char).drop 2 = body ++ ['\n'] from rfl]
  simp only [hg3, hd3, if_true, ite_true]
  simp

theorem replaceAllGo_cons_match (m : List Char → Option (List Char × List Char))
    (fuel : Nat) (c : Char) (cs rep rest : List Char)
    (hm : m (c :: cs) = some (rep, rest)) :
    Renderer.replaceAllGo m (fuel + 1) (c :: cs)
      = rep ++ Renderer.replaceAllGo m fuel rest := by
  simp [Renderer.replaceAllGo, hm]

theorem processContent_bold (d body : List Char) (hd : d ≠ [])
    (hdig : ∀ c ∈ d, Renderer.isDigit c = true) (hbody : ∀ c ∈ body, c ≠ '\n')
    (hT : hasSubstr "Title:".toList
        ('*' :: '*' :: (d ++ '.' :: '*' :: '*' :: (body ++ ['\n']))) = false)
    (hhash : hasSubstr ['#', '#'] (d ++ '.' :: ' ' :: (body ++ ['\n', '\n'])) = false) :
    Renderer.processContent .assistant
        ('*' :: '*' :: (d ++ '.' :: '*' :: '*' :: (body ++ ['\n'])))
      = d ++ '.' :: ' ' :: (body ++ ['\n', '\n']) := by
  have hbold : Renderer.replaceAll Renderer.matchBoldNumAt
      ('*' :: '*' :: (d ++ '.' :: '*' :: '*' :: (body ++ ['\n'])))
      = d ++ '.' :: ' ' :: (body ++ ['\n', '\n']) := by
    rw [Renderer.replaceAll, List.length_cons,
      replaceAllGo_cons_match _ _ _ _ _ _ (matchBoldNumAt_family d body hd hdig hbody),
      replaceAllGo_boldnum_id _ _ (by decide)]
    simp
  simp only [Renderer.processContent, hT]
  cases h2 : hasSubstr "##".toList
      ('*' :: '*' :: (d ++ '.' :: '*' :: '*' :: (body ++ ['\n'])))
  all_goals
    simp only [h2, Renderer.replaceAllAnchored, Bool.not_true,
      Bool.not_false, Bool.and_true, Bool.and_false, Bool.false_and, Bool.true_and,
      decide_True, Bool.false_eq_true, if_true, if_false, ite_false, ite_true, hbold]
  all_goals
    rw [replaceAllAnchoredGo_hash_id _ _ _ hhash]

/-- C9: the renderer's normalization is applied only to assistant messages.
A user message's content is left unmodified for every content string. An
assistant message that does not start with `'#'` and begins with a
`Title: ...` line has that line promoted to a markdown `# ...` heading
(the side conditions keep the other two regex replaces from firing on the
promoted text). An assistant message carrying a `**N.**`-style numbered-list
marker has it reformatted to a plain `N.` marker. -/
theorem chatMessage_normalization :
    (∀ c : List Char, Renderer.processContent .user c = c) ∧
    (∀ (t0 : Char) (ts rest : List Char),
        isWs t0 = false →
        (∀ c ∈ ts, c ≠ '\n') →
        hasSubstr ['*', '*'] ('#' :: ' ' :: t0 :: (ts ++ '\n' :: '\n' :: rest)) = false →
        hasSubstr ['#', '#'] ('#' :: ' ' :: t0 :: (ts ++ '\n' :: '\n' :: rest)) = false →
        Renderer.processContent .assistant
            ('T' :: 'i' :: 't' :: 'l' :: 'e' :: ':' :: ' ' :: t0 :: (ts ++ '\n' :: rest))
          = '#' :: ' ' :: t0 :: (ts ++ '\n' :: '\n' :: rest)) ∧
    (∀ d body : List Char,
        d ≠ [] →
        (∀ c ∈ d, Renderer.isDigit c = true) →
        (∀ c ∈ body, c ≠ '\n') →
        hasSubstr "Title:".toList
            ('*' :: '*' :: (d ++ '.' :: '*' :: '*' :: (body ++ ['\n']))) = false →
        hasSubstr ['#', '#'] (d ++ '.' :: ' ' :: (body ++ ['\n', '\n'])) = false →
        Renderer.processContent .assistant
            ('*' :: '*' :: (d ++ '.' :: '*' :: '*' :: (body ++ ['\n'])))
          = d ++ '.' :: ' ' :: (body ++ ['\n', '\n'])) := by
  refine ⟨?_, ?_, ?_⟩
  · intro c
    simp [Renderer.processContent]
  · intro t0 ts rest h0 hts hstar hhash
    exact processContent_title t0 ts rest h0 hts hstar hhash
  · intro d body hd hdig hbody hT hhash
    exact processContent_bold d body hd hdig hbody hT hhash

/-- C9 witness: the normalization promotes `"Title: Hello\nWorld"` to
`"# Hello\n\nWorld"` and rewrites `"**1.** First\n"` to `"1.  First\n\n"`
for an assistant message, while a user message keeps a `Title:` line
verbatim. -/
theorem chatMessage_normalization_witness :
    Renderer.processContent .user ('T' :: 'i' :: 't' :: 'l' :: 'e' :: ':' :: ' ' :: ['x'])
      = 'T' :: 'i' :: 't' :: 'l' :: 'e' :: ':' :: ' ' :: ['x'] ∧
    Renderer.processContent .assistant
        ('T' :: 'i' :: 't' :: 'l' :: 'e' :: ':' :: ' ' :: 'H' ::
          (['e', 'l', 'l', 'o'] ++ '\n' :: ['W', 'o', 'r', 'l', 'd']))
      = '#' :: ' ' :: 'H' :: (['e', 'l', 'l', 'o'] ++ '\n' :: '\n' :: ['W', 'o', 'r', 'l', 'd']) ∧
    Renderer.processContent .assistant
        ('*' :: '*' :: (['1'] ++ '.' :: '*' :: '*' :: ([' ', 'F', 'i', 'r', 's', 't'] ++ ['\n'])))
      = ['1'] ++ '.' :: ' ' :: ([' ', 'F', 'i', 'r', 's', 't'] ++ ['\n', '\n']) :=
  ⟨chatMessage_normalization.1 _,
   chatMessage_normalization.2.1 'H' ['e', 'l', 'l', 'o'] ['W', 'o', 'r', 'l', 'd']
     (by decide) (by decide) (by decide) (by decide),
   chatMessage_normalization.2.2 ['1'] [' ', 'F', 'i', 'r', 's', 't']
     (by decide) (by decide) (by decide) (by decide) (by decide)⟩

end ContentCreator
